import Mathlib

/-!
Verification of the deep-research pipeline (planner / search / writer / email
agents orchestrated by `ResearchManager`).

The Python code is shallowly embedded: every external call (the hosted agent
runtime, the web-search provider, the email provider) is a parameter — an
oracle function from the request string the code actually builds to the
outcome the external service returns.  `Except String α` models a call that
either raises (`.error msg`) or returns a value of the structured output type.
The `asyncio.as_completed` collection order of the parallel search fan-out is
made explicit as a `completionOrder` list, a permutation of the planned items.
-/

/-- `WebSearchItem` from planner_agent.py: one planned search. -/
structure WebSearchItem where
  reason : String
  query : String
deriving DecidableEq, Repr

/-- `WebSearchPlan` from planner_agent.py: the structured planner output. -/
structure WebSearchPlan where
  searches : List WebSearchItem
deriving DecidableEq, Repr

/-- `ReportData` from writer_agent.py: the structured writer output. -/
structure ReportData where
  short_summary : String
  markdown_report : String
  follow_up_questions : List String
deriving DecidableEq, Repr

/-- `HOW_MANY_SEARCHES` from planner_agent.py: the target number of search
terms, interpolated into the planner prompt text only. -/
def HOW_MANY_SEARCHES : Nat := 5

/-- The planner instructions from planner_agent.py (prompt text; the count
appears here and nowhere else in the core logic). -/
def planner_instructions : String :=
  "You are a helpful research assistant. Given a query, come up with a set of web searches " ++
  "to perform to best answer the query. Output " ++ toString HOW_MANY_SEARCHES ++
  " terms to query for."

/-- The single-quote character, used by the Python `repr` of strings. -/
def squote : Char := Char.ofNat 39

/-- The double-quote character. -/
def dquote : Char := Char.ofNat 34

/-- Python `repr` of one character inside a string literal quoted by `q`
(common printable path: backslash, the active quote and the usual control
characters are escaped, everything else passes through). -/
def pyCharRepr (q : Char) (c : Char) : String :=
  if c = Char.ofNat 92 then String.mk [Char.ofNat 92, Char.ofNat 92]
  else if c = q then String.mk [Char.ofNat 92, q]
  else if c = Char.ofNat 10 then String.mk [Char.ofNat 92, Char.ofNat 110]
  else if c = Char.ofNat 13 then String.mk [Char.ofNat 92, Char.ofNat 114]
  else if c = Char.ofNat 9 then String.mk [Char.ofNat 92, Char.ofNat 116]
  else String.mk [c]

/-- Python `repr` of a string: single-quoted, unless the string contains a
single quote and no double quote. -/
def pyStrRepr (s : String) : String :=
  let q := if s.contains squote ∧ ¬ s.contains dquote then dquote else squote
  String.mk [q] ++ String.join (s.data.map (pyCharRepr q)) ++ String.mk [q]

/-- Python `str` of a list of strings (elementwise `repr`, comma separated,
square brackets), as produced by the f-string in `write_report`. -/
def pyListRepr (l : List String) : String :=
  "[" ++ String.intercalate ", " (l.map pyStrRepr) ++ "]"

/-- The trace chunk yielded first by `ResearchManager.run`. -/
def trace_chunk (trace_id : String) : String :=
  "View trace: https://platform.openai.com/traces/trace?trace_id=" ++ trace_id

/-- The input string `plan_searches` passes to the planner agent. -/
def plan_input (query : String) : String :=
  "Query: " ++ query

/-- The input string `search` passes to the search agent for one item. -/
def search_input (item : WebSearchItem) : String :=
  "Search term: " ++ item.query ++ "\nReason for searching: " ++ item.reason

/-- The input string `write_report` passes to the writer agent. -/
def write_input (query : String) (search_results : List String) : String :=
  "Original query: " ++ query ++ "\nSummarized search results: " ++ pyListRepr search_results

/-- The progress line printed by `perform_searches` after each completed task. -/
def progress_tick (num_completed total : Nat) : String :=
  "Searching... " ++ toString num_completed ++ "/" ++ toString total ++ " completed"

/-- `ResearchManager.search`: runs the search agent on one item and returns
the summary, or `none` when the external call raises (the `except Exception`
branch).  `runner` is the oracle for `Runner.run(search_agent, input_data)`. -/
def search (runner : String → Except String String) (item : WebSearchItem) : Option String :=
  match runner (search_input item) with
  | .ok out => some out
  | .error _ => none

/-- The `for task in asyncio.as_completed(tasks)` loop body of
`perform_searches`: walks the tasks in completion order, appends non-`None`
results, and prints one progress tick per completed task. -/
def perform_searches_loop (searchFn : WebSearchItem → Option String) :
    List WebSearchItem → Nat → Nat → List String × List String
  | [], _, _ => ([], [])
  | item :: rest, num_completed, total =>
    let next := perform_searches_loop searchFn rest (num_completed + 1) total
    (match searchFn item with
     | some r => r :: next.1
     | none => next.1,
     progress_tick (num_completed + 1) total :: next.2)

/-- `ResearchManager.perform_searches` (`dispatchAll`): dispatches one search
task per planned item and collects results in completion order.
`completionOrder` lists the tasks in the order `asyncio.as_completed` yields
them — a permutation of `search_plan.searches`.  Returns the collected result
list and the emitted progress ticks. -/
def perform_searches (runner : String → Except String String)
    (search_plan : WebSearchPlan) (completionOrder : List WebSearchItem) :
    List String × List String :=
  perform_searches_loop (search runner) completionOrder 0 search_plan.searches.length

/-- Everything observable about one invocation of `ResearchManager.run`:
the chunks yielded so far, the inputs of the calls made to the writer and
email agents, and the exception that aborted the run, if any. -/
structure RunResult where
  chunks : List String
  writerCalls : List String
  emailCalls : List String
  error : Option String
deriving DecidableEq, Repr

/-- `ResearchManager.run`: the full pipeline.  `trace_id` models
`gen_trace_id()`; `planner`, `searchRunner`, `writer`, `email` are the oracles
for the four `Runner.run` call sites; `completionOrder` gives the
`as_completed` order of the search fan-out for the produced plan.  A fatal
error at planning or writing (or an email-agent exception) stops the chunk
stream where the code would stop yielding. -/
def run (trace_id query : String)
    (planner : String → Except String WebSearchPlan)
    (searchRunner : String → Except String String)
    (completionOrder : WebSearchPlan → List WebSearchItem)
    (writer : String → Except String ReportData)
    (email : String → Except String Unit) : RunResult :=
  let c0 := [trace_chunk trace_id]
  match planner (plan_input query) with
  | .error e => ⟨c0, [], [], some e⟩
  | .ok search_plan =>
    let c1 := c0 ++ ["Searches planned, starting to search..."]
    let search_results := (perform_searches searchRunner search_plan (completionOrder search_plan)).1
    let c2 := c1 ++ ["Searches complete, writing report..."]
    let winput := write_input query search_results
    match writer winput with
    | .error e => ⟨c2, [winput], [], some e⟩
    | .ok report =>
      let c3 := c2 ++ ["Report written, sending email..."]
      match email report.markdown_report with
      | .error e => ⟨c3, [winput], [report.markdown_report], some e⟩
      | .ok _ =>
        ⟨c3 ++ ["Email sent, research complete", report.markdown_report],
         [winput], [report.markdown_report], none⟩

/-- The provider response object returned by
`sg.client.mail.send.post(request_body=mail)` in email_agent.py. -/
structure ProviderResponse where
  status_code : Nat
deriving DecidableEq, Repr

/-- The dictionary returned by the `send_email` tool. -/
structure SendEmailResult where
  status : String
deriving DecidableEq, Repr

/-- The `send_email` function tool from email_agent.py: posts the mail to the
provider, logs the status code, and returns `{"status": "success"}` whatever
the provider's status code was.  `provider` is the oracle for the SendGrid
post call, from (subject, html body) to the provider response. -/
def send_email_tool (provider : String → String → ProviderResponse)
    (subject : String) (html_body : String) : SendEmailResult :=
  let _response := provider subject html_body
  ⟨"success"⟩

/-- `ResearchManager.send_email`: runs the email agent on the report's
markdown text (and nothing else from the report). -/
def manager_send_email (email : String → Except String Unit) (report : ReportData) :
    Except String Unit :=
  email report.markdown_report

-- Helper lemmas about the dispatch loop.

/-- The results collected by the dispatch loop are exactly the non-`None`
search outcomes, in completion order. -/
theorem perform_searches_loop_fst (searchFn : WebSearchItem → Option String) :
    ∀ (l : List WebSearchItem) (n t : Nat),
      (perform_searches_loop searchFn l n t).1 = l.filterMap searchFn := by
  intro l
  induction l with
  | nil => intro n t; rfl
  | cons item rest ih =>
    intro n t
    simp only [perform_searches_loop, List.filterMap_cons, ih]
    cases searchFn item <;> rfl

/-- The dispatch loop emits exactly one progress tick per task. -/
theorem perform_searches_loop_snd_length (searchFn : WebSearchItem → Option String) :
    ∀ (l : List WebSearchItem) (n t : Nat),
      (perform_searches_loop searchFn l n t).2.length = l.length := by
  intro l
  induction l with
  | nil => intro n t; rfl
  | cons item rest ih =>
    intro n t
    simp only [perform_searches_loop, List.length_cons, ih]

/-- `perform_searches` collects exactly the non-`None` outcomes in completion
order. -/
theorem perform_searches_fst (runner : String → Except String String)
    (plan : WebSearchPlan) (ord : List WebSearchItem) :
    (perform_searches runner plan ord).1 = ord.filterMap (search runner) :=
  perform_searches_loop_fst _ _ _ _

/-- `perform_searches` emits exactly one progress tick per task in the
completion order. -/
theorem perform_searches_snd_length (runner : String → Except String String)
    (plan : WebSearchPlan) (ord : List WebSearchItem) :
    (perform_searches runner plan ord).2.length = ord.length :=
  perform_searches_loop_snd_length _ _ _ _

/-- Counting identity: collected results plus dropped items account for every
task. -/
theorem filterMap_length_add_countP_none (f : WebSearchItem → Option String) :
    ∀ (l : List WebSearchItem),
      (l.filterMap f).length + l.countP (fun a => (f a).isNone) = l.length := by
  intro l
  induction l with
  | nil => rfl
  | cons a rest ih =>
    rw [List.countP_cons]
    cases h : f a with
    | none =>
      rw [List.filterMap_cons_none h]
      simp only [h, Option.isNone_none, if_pos, List.length_cons]
      omega
    | some b =>
      rw [List.filterMap_cons_some h]
      simp only [h, Option.isNone_some, List.length_cons, Bool.false_eq_true, if_false]
      omega

-- Sample inputs used by the witness theorems.

/-- A sample planned item. -/
def sampleItemA : WebSearchItem := ⟨"reason A", "alpha"⟩

/-- A sample planned item. -/
def sampleItemB : WebSearchItem := ⟨"reason B", "beta"⟩

/-- A sample planned item. -/
def sampleItemC : WebSearchItem := ⟨"reason C", "gamma"⟩

/-- A sample planned item. -/
def sampleItemD : WebSearchItem := ⟨"reason D", "delta"⟩

/-- A sample planned item. -/
def sampleItemE : WebSearchItem := ⟨"reason E", "epsilon"⟩

/-- A sample search oracle that raises on `sampleItemA` and summarizes
everything else. -/
def failRunner : String → Except String String := fun s =>
  if s = search_input sampleItemA then Except.error "network error"
  else Except.ok ("summary: " ++ s)

/-- A sample five-item plan. -/
def samplePlan5 : WebSearchPlan :=
  ⟨[sampleItemA, sampleItemB, sampleItemC, sampleItemD, sampleItemE]⟩

/-- A sample report. -/
def sampleReport : ReportData :=
  ⟨"short summary", "# Report body", ["follow up one"]⟩

/-- C1: for every plan of size N, completion order (a permutation of the
plan) and search oracle under which exactly k of the N items fail,
`perform_searches` returns exactly N − k results, emits exactly N progress
ticks, and never collects more results than planned items. -/
theorem C1_dispatch_counts (runner : String → Except String String)
    (plan : WebSearchPlan) (ord : List WebSearchItem) (k : Nat)
    (hperm : ord.Perm plan.searches)
    (hk : plan.searches.countP (fun i => (search runner i).isNone) = k) :
    (perform_searches runner plan ord).1.length = plan.searches.length - k ∧
    (perform_searches runner plan ord).2.length = plan.searches.length ∧
    (perform_searches runner plan ord).1.length ≤ plan.searches.length := by
  have h1 : (perform_searches runner plan ord).1 = ord.filterMap (search runner) :=
    perform_searches_loop_fst _ _ _ _
  have h2 : (perform_searches runner plan ord).2.length = ord.length :=
    perform_searches_loop_snd_length _ _ _ _
  have hcnt : ord.countP (fun i => (search runner i).isNone) = k := by
    rw [hperm.countP_eq]
    exact hk
  have hsum := filterMap_length_add_countP_none (search runner) ord
  have hlen := hperm.length_eq
  refine ⟨?_, ?_, ?_⟩
  · rw [h1]
    omega
  · rw [h2, hlen]
  · rw [h1]
    omega

/-- Witness for C1 at a concrete two-item plan with one failing item and a
swapped completion order. -/
theorem C1_dispatch_counts_witness :
    (List.Perm [sampleItemB, sampleItemA] (WebSearchPlan.mk [sampleItemA, sampleItemB]).searches) ∧
    ((WebSearchPlan.mk [sampleItemA, sampleItemB]).searches.countP
        (fun i => (search failRunner i).isNone) = 1) ∧
    ((perform_searches failRunner (WebSearchPlan.mk [sampleItemA, sampleItemB])
        [sampleItemB, sampleItemA]).1.length
          = (WebSearchPlan.mk [sampleItemA, sampleItemB]).searches.length - 1 ∧
      (perform_searches failRunner (WebSearchPlan.mk [sampleItemA, sampleItemB])
        [sampleItemB, sampleItemA]).2.length
          = (WebSearchPlan.mk [sampleItemA, sampleItemB]).searches.length ∧
      (perform_searches failRunner (WebSearchPlan.mk [sampleItemA, sampleItemB])
        [sampleItemB, sampleItemA]).1.length
          ≤ (WebSearchPlan.mk [sampleItemA, sampleItemB]).searches.length) :=
  ⟨List.Perm.swap sampleItemA sampleItemB [], by decide,
    C1_dispatch_counts failRunner (WebSearchPlan.mk [sampleItemA, sampleItemB])
      [sampleItemB, sampleItemA] 1 (List.Perm.swap sampleItemA sampleItemB []) (by decide)⟩

/-- C5: when the external search call for an item raises, `search` returns
`none` instead of propagating, and the failed item neither removes sibling
results from the dispatch nor cuts the dispatch short (a tick is still
emitted for it and for every sibling). -/
theorem C5_search_failure_isolated (runner : String → Except String String)
    (item : WebSearchItem) (e : String)
    (h : runner (search_input item) = Except.error e) :
    search runner item = none ∧
    ∀ (plan : WebSearchPlan) (rest : List WebSearchItem),
      (perform_searches runner plan (item :: rest)).1 =
        (perform_searches runner plan rest).1 ∧
      (perform_searches runner plan (item :: rest)).2.length = rest.length + 1 := by
  have hs : search runner item = none := by
    unfold search
    rw [h]
  refine ⟨hs, ?_⟩
  intro plan rest
  constructor
  · rw [perform_searches_fst, perform_searches_fst, List.filterMap_cons_none hs]
  · rw [perform_searches_snd_length, List.length_cons]

/-- Witness for C5 at a concrete failing item. -/
theorem C5_search_failure_isolated_witness :
    failRunner (search_input sampleItemA) = Except.error "network error" ∧
    (search failRunner sampleItemA = none ∧
      ∀ (plan : WebSearchPlan) (rest : List WebSearchItem),
        (perform_searches failRunner plan (sampleItemA :: rest)).1 =
          (perform_searches failRunner plan rest).1 ∧
        (perform_searches failRunner plan (sampleItemA :: rest)).2.length = rest.length + 1) :=
  ⟨rfl, C5_search_failure_isolated failRunner sampleItemA "network error" rfl⟩

/-- C7: two completion orders that are permutations of each other (for
example induced by two latency assignments that leave each item's outcome
unchanged) yield the same multiset of successful summaries; only the
collection order may differ. -/
theorem C7_order_independent_multiset (runner : String → Except String String)
    (plan : WebSearchPlan) (ord1 ord2 : List WebSearchItem)
    (h12 : ord1.Perm ord2) :
    (↑(perform_searches runner plan ord1).1 : Multiset String) =
      ↑(perform_searches runner plan ord2).1 := by
  rw [perform_searches_fst, perform_searches_fst]
  exact Multiset.coe_eq_coe.mpr (h12.filterMap _)

/-- Witness for C7 at two concrete swapped completion orders. -/
theorem C7_order_independent_multiset_witness :
    List.Perm [sampleItemA, sampleItemB] [sampleItemB, sampleItemA] ∧
    (↑(perform_searches failRunner (WebSearchPlan.mk [sampleItemA, sampleItemB])
        [sampleItemA, sampleItemB]).1 : Multiset String) =
      ↑(perform_searches failRunner (WebSearchPlan.mk [sampleItemA, sampleItemB])
        [sampleItemB, sampleItemA]).1 :=
  ⟨List.Perm.swap sampleItemB sampleItemA [],
    C7_order_independent_multiset failRunner (WebSearchPlan.mk [sampleItemA, sampleItemB])
      [sampleItemA, sampleItemB] [sampleItemB, sampleItemA]
      (List.Perm.swap sampleItemB sampleItemA [])⟩

/-- C10: the dispatcher runs exactly one unit per planned item, whatever the
plan's length — the target count of 5 lives only in the planner prompt — and
an empty plan yields an empty dispatch (no results, no ticks, no error). -/
theorem C10_dispatch_count_is_plan_length (runner : String → Except String String)
    (plan : WebSearchPlan) (ord : List WebSearchItem)
    (hperm : ord.Perm plan.searches) :
    (perform_searches runner plan ord).2.length = plan.searches.length ∧
    (plan.searches = [] → perform_searches runner plan ord = ([], [])) := by
  constructor
  · rw [perform_searches_snd_length]
    exact hperm.length_eq
  · intro hnil
    have : ord = [] := by
      have := hperm.length_eq
      rw [hnil] at this
      exact List.length_eq_zero.mp this
    rw [this]
    rfl

/-- Witness for C10 at the empty plan. -/
theorem C10_dispatch_count_is_plan_length_witness :
    List.Perm ([] : List WebSearchItem) (WebSearchPlan.mk []).searches ∧
    ((perform_searches failRunner (WebSearchPlan.mk []) []).2.length
        = (WebSearchPlan.mk []).searches.length ∧
      ((WebSearchPlan.mk []).searches = [] →
        perform_searches failRunner (WebSearchPlan.mk []) [] = ([], []))) :=
  ⟨List.Perm.refl [],
    C10_dispatch_count_is_plan_length failRunner (WebSearchPlan.mk []) [] (List.Perm.refl [])⟩

-- Concrete oracles used by the run-level witnesses.

/-- A planner oracle that always returns the five-item sample plan. -/
def okPlanner5 : String → Except String WebSearchPlan := fun _ => Except.ok samplePlan5

/-- A completion order equal to submission order (one admissible
`as_completed` order). -/
def planOrder : WebSearchPlan → List WebSearchItem := fun p => p.searches

/-- A writer oracle that always returns the sample report. -/
def constWriter : String → Except String ReportData := fun _ => Except.ok sampleReport

/-- An email-agent oracle that always succeeds (as it does when the
`send_email` tool is the only thing that can fail, since that tool never
raises). -/
def okEmail : String → Except String Unit := fun _ => Except.ok ()

/-- A writer oracle whose external response is structurally malformed, so
`final_output_as(ReportData)` raises. -/
def badWriter : String → Except String ReportData :=
  fun _ => Except.error "validation error: markdown_report field missing"

/-- A provider oracle returning a non-2xx status. -/
def errorProvider : String → String → ProviderResponse := fun _ _ => ⟨500⟩

/-- C2: the `send_email` tool returns `{status: "success"}` for every
provider response status (2xx or not) without raising, and a run whose plan
and report stages succeed proceeds past the notify step to yield the final
report chunk — a provider error never surfaces. -/
theorem C2_notify_masks_provider_errors
    (provider : String → String → ProviderResponse) (subject html_body : String)
    (trace_id query : String)
    (planner : String → Except String WebSearchPlan)
    (searchRunner : String → Except String String)
    (ordFn : WebSearchPlan → List WebSearchItem)
    (writer : String → Except String ReportData)
    (plan : WebSearchPlan) (report : ReportData)
    (hplan : planner (plan_input query) = Except.ok plan)
    (hwrite : writer (write_input query
        (perform_searches searchRunner plan (ordFn plan)).1) = Except.ok report) :
    send_email_tool provider subject html_body = ⟨"success"⟩ ∧
    (run trace_id query planner searchRunner ordFn writer (fun _ => Except.ok ())).error = none ∧
    (run trace_id query planner searchRunner ordFn writer (fun _ => Except.ok ())).chunks =
      [trace_chunk trace_id, "Searches planned, starting to search...",
       "Searches complete, writing report...", "Report written, sending email...",
       "Email sent, research complete", report.markdown_report] := by
  refine ⟨rfl, ?_, ?_⟩ <;> simp [run, hplan, hwrite]

/-- Witness for C2 with a provider stuck on status 500. -/
theorem C2_notify_masks_provider_errors_witness :
    okPlanner5 (plan_input "q") = Except.ok samplePlan5 ∧
    constWriter (write_input "q"
        (perform_searches failRunner samplePlan5 (planOrder samplePlan5)).1)
      = Except.ok sampleReport ∧
    (send_email_tool errorProvider "Research Report" "<h1>Report</h1>" = ⟨"success"⟩ ∧
      (run "t-1" "q" okPlanner5 failRunner planOrder constWriter (fun _ => Except.ok ())).error
        = none ∧
      (run "t-1" "q" okPlanner5 failRunner planOrder constWriter (fun _ => Except.ok ())).chunks =
        [trace_chunk "t-1", "Searches planned, starting to search...",
         "Searches complete, writing report...", "Report written, sending email...",
         "Email sent, research complete", sampleReport.markdown_report]) :=
  ⟨rfl, rfl,
    C2_notify_masks_provider_errors errorProvider "Research Report" "<h1>Report</h1>"
      "t-1" "q" okPlanner5 failRunner planOrder constWriter samplePlan5 sampleReport rfl rfl⟩

/-- C3: when planning yields 5 items of which 4 succeed and 1 fails, and
writing and notifying succeed, `run` yields exactly the 5 status chunks in
order (trace, planned, searched, written, emailed) followed by exactly the
final report chunk, and the notify stage is invoked exactly once. -/
theorem C3_end_to_end_six_chunks
    (trace_id query : String)
    (planner : String → Except String WebSearchPlan)
    (searchRunner : String → Except String String)
    (ordFn : WebSearchPlan → List WebSearchItem)
    (writer : String → Except String ReportData)
    (email : String → Except String Unit)
    (plan : WebSearchPlan) (report : ReportData)
    (hplan : planner (plan_input query) = Except.ok plan)
    (hlen : plan.searches.length = 5)
    (hperm : (ordFn plan).Perm plan.searches)
    (hfail : plan.searches.countP (fun i => (search searchRunner i).isNone) = 1)
    (hwrite : writer (write_input query
        (perform_searches searchRunner plan (ordFn plan)).1) = Except.ok report)
    (hemail : email report.markdown_report = Except.ok ()) :
    (run trace_id query planner searchRunner ordFn writer email).chunks =
      [trace_chunk trace_id, "Searches planned, starting to search...",
       "Searches complete, writing report...", "Report written, sending email...",
       "Email sent, research complete", report.markdown_report] ∧
    (run trace_id query planner searchRunner ordFn writer email).chunks.length = 6 ∧
    (run trace_id query planner searchRunner ordFn writer email).emailCalls.length = 1 := by
  refine ⟨?_, ?_, ?_⟩ <;> simp [run, hplan, hwrite, hemail]

/-- Witness for C3 at the spec's scenario: five planned items, one failing
search, deterministic stubs. -/
theorem C3_end_to_end_six_chunks_witness :
    okPlanner5 (plan_input "Impact of AI on Healthcare") = Except.ok samplePlan5 ∧
    samplePlan5.searches.length = 5 ∧
    (planOrder samplePlan5).Perm samplePlan5.searches ∧
    samplePlan5.searches.countP (fun i => (search failRunner i).isNone) = 1 ∧
    constWriter (write_input "Impact of AI on Healthcare"
        (perform_searches failRunner samplePlan5 (planOrder samplePlan5)).1)
      = Except.ok sampleReport ∧
    okEmail sampleReport.markdown_report = Except.ok () ∧
    ((run "t-42" "Impact of AI on Healthcare" okPlanner5 failRunner planOrder
        constWriter okEmail).chunks =
      [trace_chunk "t-42", "Searches planned, starting to search...",
       "Searches complete, writing report...", "Report written, sending email...",
       "Email sent, research complete", sampleReport.markdown_report] ∧
      (run "t-42" "Impact of AI on Healthcare" okPlanner5 failRunner planOrder
        constWriter okEmail).chunks.length = 6 ∧
      (run "t-42" "Impact of AI on Healthcare" okPlanner5 failRunner planOrder
        constWriter okEmail).emailCalls.length = 1) :=
  ⟨rfl, rfl, List.Perm.refl _, by decide, rfl, rfl,
    C3_end_to_end_six_chunks "t-42" "Impact of AI on Healthcare" okPlanner5 failRunner
      planOrder constWriter okEmail samplePlan5 sampleReport rfl rfl (List.Perm.refl _)
      (by decide) rfl rfl⟩

/-- C4: a structurally malformed writer response makes the run fail after
the searching chunks: the error propagates out, the notify stage is never
invoked, and no final report chunk is yielded. -/
theorem C4_malformed_write_is_fatal
    (trace_id query : String)
    (planner : String → Except String WebSearchPlan)
    (searchRunner : String → Except String String)
    (ordFn : WebSearchPlan → List WebSearchItem)
    (writer : String → Except String ReportData)
    (email : String → Except String Unit)
    (plan : WebSearchPlan) (e : String)
    (hplan : planner (plan_input query) = Except.ok plan)
    (hwrite : writer (write_input query
        (perform_searches searchRunner plan (ordFn plan)).1) = Except.error e) :
    (run trace_id query planner searchRunner ordFn writer email).error = some e ∧
    (run trace_id query planner searchRunner ordFn writer email).emailCalls = [] ∧
    (run trace_id query planner searchRunner ordFn writer email).chunks =
      [trace_chunk trace_id, "Searches planned, starting to search...",
       "Searches complete, writing report..."] := by
  refine ⟨?_, ?_, ?_⟩ <;> simp [run, hplan, hwrite]

/-- Witness for C4 with a writer returning a malformed response. -/
theorem C4_malformed_write_is_fatal_witness :
    okPlanner5 (plan_input "q") = Except.ok samplePlan5 ∧
    badWriter (write_input "q"
        (perform_searches failRunner samplePlan5 (planOrder samplePlan5)).1)
      = Except.error "validation error: markdown_report field missing" ∧
    ((run "t-7" "q" okPlanner5 failRunner planOrder badWriter okEmail).error
        = some "validation error: markdown_report field missing" ∧
      (run "t-7" "q" okPlanner5 failRunner planOrder badWriter okEmail).emailCalls = [] ∧
      (run "t-7" "q" okPlanner5 failRunner planOrder badWriter okEmail).chunks =
        [trace_chunk "t-7", "Searches planned, starting to search...",
         "Searches complete, writing report..."]) :=
  ⟨rfl, rfl,
    C4_malformed_write_is_fatal "t-7" "q" okPlanner5 failRunner planOrder badWriter okEmail
      samplePlan5 "validation error: markdown_report field missing" rfl rfl⟩

/-- C6: `run` holds no state across invocations — two sequential runs with
the same query, the same (stubbed, deterministic) trace id and the same
deterministic external stubs produce identical chunk sequences, the trace
chunk included. -/
theorem C6_deterministic_reruns (t1 t2 q : String)
    (planner : String → Except String WebSearchPlan)
    (searchRunner : String → Except String String)
    (ordFn : WebSearchPlan → List WebSearchItem)
    (writer : String → Except String ReportData)
    (email : String → Except String Unit)
    (h : t1 = t2) :
    (run t1 q planner searchRunner ordFn writer email).chunks =
      (run t2 q planner searchRunner ordFn writer email).chunks := by
  rw [h]

/-- Witness for C6 with concrete deterministic stubs. -/
theorem C6_deterministic_reruns_witness :
    "t-99" = "t-99" ∧
    (run "t-99" "q" okPlanner5 failRunner planOrder constWriter okEmail).chunks =
      (run "t-99" "q" okPlanner5 failRunner planOrder constWriter okEmail).chunks :=
  ⟨rfl, C6_deterministic_reruns "t-99" "t-99" "q" okPlanner5 failRunner planOrder
    constWriter okEmail rfl⟩

/-- C8: the dispatcher emits one tick per planned item — it returns only
after every dispatched unit has resolved, never early with partial results —
and the writer is invoked exactly once, with the results of the fully
resolved dispatch. -/
theorem C8_write_waits_for_all_searches
    (trace_id query : String)
    (planner : String → Except String WebSearchPlan)
    (searchRunner : String → Except String String)
    (ordFn : WebSearchPlan → List WebSearchItem)
    (writer : String → Except String ReportData)
    (email : String → Except String Unit)
    (plan : WebSearchPlan)
    (hplan : planner (plan_input query) = Except.ok plan)
    (hperm : (ordFn plan).Perm plan.searches) :
    (perform_searches searchRunner plan (ordFn plan)).2.length = plan.searches.length ∧
    (run trace_id query planner searchRunner ordFn writer email).writerCalls =
      [write_input query (perform_searches searchRunner plan (ordFn plan)).1] := by
  constructor
  · rw [perform_searches_snd_length]
    exact hperm.length_eq
  · cases hw : writer (write_input query (perform_searches searchRunner plan (ordFn plan)).1) with
    | error e => simp [run, hplan, hw]
    | ok report =>
      cases he : email report.markdown_report with
      | error e => simp [run, hplan, hw, he]
      | ok u => simp [run, hplan, hw, he]

/-- Witness for C8 with concrete stubs. -/
theorem C8_write_waits_for_all_searches_witness :
    okPlanner5 (plan_input "q") = Except.ok samplePlan5 ∧
    (planOrder samplePlan5).Perm samplePlan5.searches ∧
    ((perform_searches failRunner samplePlan5 (planOrder samplePlan5)).2.length
        = samplePlan5.searches.length ∧
      (run "t-8" "q" okPlanner5 failRunner planOrder constWriter okEmail).writerCalls =
        [write_input "q" (perform_searches failRunner samplePlan5 (planOrder samplePlan5)).1]) :=
  ⟨rfl, List.Perm.refl _,
    C8_write_waits_for_all_searches "t-8" "q" okPlanner5 failRunner planOrder constWriter
      okEmail samplePlan5 rfl (List.Perm.refl _)⟩

/-- C9: two writer oracles that agree except possibly in `short_summary` and
`follow_up_questions` of the produced report lead to identical email-agent
requests (and identical chunk streams): after the write stage the pipeline
uses only `markdown_report`. -/
theorem C9_notify_ignores_other_report_fields
    (trace_id query : String)
    (planner : String → Except String WebSearchPlan)
    (searchRunner : String → Except String String)
    (ordFn : WebSearchPlan → List WebSearchItem)
    (email : String → Except String Unit)
    (writer1 writer2 : String → Except String ReportData)
    (h : ∀ s, match writer1 s, writer2 s with
      | Except.ok r1, Except.ok r2 => r1.markdown_report = r2.markdown_report
      | Except.error e1, Except.error e2 => e1 = e2
      | _, _ => False) :
    (run trace_id query planner searchRunner ordFn writer1 email).emailCalls =
      (run trace_id query planner searchRunner ordFn writer2 email).emailCalls ∧
    (run trace_id query planner searchRunner ordFn writer1 email).chunks =
      (run trace_id query planner searchRunner ordFn writer2 email).chunks := by
  cases hp : planner (plan_input query) with
  | error e => constructor <;> simp [run, hp]
  | ok plan =>
    have hw := h (write_input query (perform_searches searchRunner plan (ordFn plan)).1)
    cases h1 : writer1 (write_input query (perform_searches searchRunner plan (ordFn plan)).1) with
    | error e1 =>
      cases h2 : writer2 (write_input query (perform_searches searchRunner plan (ordFn plan)).1) with
      | error e2 =>
        constructor <;> simp [run, hp, h1, h2]
      | ok r2 =>
        rw [h1, h2] at hw
        exact hw.elim
    | ok r1 =>
      cases h2 : writer2 (write_input query (perform_searches searchRunner plan (ordFn plan)).1) with
      | error e2 =>
        rw [h1, h2] at hw
        exact hw.elim
      | ok r2 =>
        rw [h1, h2] at hw
        have hmd : r1.markdown_report = r2.markdown_report := hw
        cases he : email r2.markdown_report with
        | error e =>
          constructor <;> simp [run, hp, h1, h2, hmd, he]
        | ok u =>
          constructor <;> simp [run, hp, h1, h2, hmd, he]

/-- Witness for C9 with two writers whose reports differ in the summary and
follow-up fields only. -/
theorem C9_notify_ignores_other_report_fields_witness :
    (∀ s, match constWriter s, (fun _ => Except.ok
        (ReportData.mk "different summary" "# Report body" [])
          : String → Except String ReportData) s with
      | Except.ok r1, Except.ok r2 => r1.markdown_report = r2.markdown_report
      | Except.error e1, Except.error e2 => e1 = e2
      | _, _ => False) ∧
    ((run "t-9" "q" okPlanner5 failRunner planOrder constWriter okEmail).emailCalls =
      (run "t-9" "q" okPlanner5 failRunner planOrder
        (fun _ => Except.ok (ReportData.mk "different summary" "# Report body" [])) okEmail).emailCalls ∧
    (run "t-9" "q" okPlanner5 failRunner planOrder constWriter okEmail).chunks =
      (run "t-9" "q" okPlanner5 failRunner planOrder
        (fun _ => Except.ok (ReportData.mk "different summary" "# Report body" [])) okEmail).chunks) :=
  ⟨fun _ => rfl,
    C9_notify_ignores_other_report_fields "t-9" "q" okPlanner5 failRunner planOrder okEmail
      constWriter (fun _ => Except.ok (ReportData.mk "different summary" "# Report body" []))
      (fun _ => rfl)⟩
